import Mathlib

/-!
Verification development for the G-code post-processing engine in
`src/Mod/Path/PathScripts/PostUtils.py`.

Numbers handled by the engine are modelled as rationals (`ℚ`): FreeCAD holds
all quantities in canonical metric units (millimetres, millimetres per
second) and the engine's arithmetic on them is plain field arithmetic.
Python dictionaries of single-letter parameter keys are modelled as
association lists.  Python exceptions are modelled with `Except PyErr`;
a call that raises `TypeError` at call time (for example a call to a
function that is missing a required positional argument) is modelled as
returning `Except.error PyErr.typeError`.
-/

namespace PostUtils

/-- Python exception classes that the modelled code can raise. -/
inductive PyErr where
  | typeError
  | keyError
  | indexError
  | nameError
deriving DecidableEq, Repr

/-- Round-half-to-even of a rational to an integer, the rounding used by
fixed-point `%f` formatting. -/
def halfEvenRound (r : ℚ) : ℤ :=
  let f : ℤ := ⌊r⌋
  if 2 * (r - f) > 1 then f + 1
  else if 2 * (r - f) < 1 then f
  else if f % 2 = 0 then f else f + 1

/-- Little-endian base-10 digits with explicit fuel (structural recursion,
so that concrete formatting evaluates inside the kernel). -/
def decDigitsAux : ℕ → ℕ → List ℕ
  | _, 0 => []
  | 0, _ + 1 => []
  | fuel + 1, n + 1 => (n + 1) % 10 :: decDigitsAux fuel ((n + 1) / 10)

/-- Little-endian base-10 digits of a natural number. -/
def decDigits (n : ℕ) : List ℕ := decDigitsAux n n

/-- Decimal rendering of a natural number, as Python `str` renders an `int`. -/
def natStr (n : ℕ) : String :=
  if n = 0 then "0" else String.mk ((decDigits n).reverse.map Nat.digitChar)

/-- The fractional-digit block of fixed-point formatting: the digits of
`fp` padded on the left with zeros to exactly `dec` digits (`fp < 10 ^ dec`). -/
def fracDigits (fp : ℕ) (dec : ℕ) : String :=
  String.mk (List.replicate (dec - (decDigits fp).length) '0'
    ++ (decDigits fp).reverse.map Nat.digitChar)

/-- Model of Python `"%.*f" % (dec, q)`: fixed-point decimal formatting of a
rational with exactly `dec` digits after the decimal point (none when
`dec = 0`), rounding half to even. -/
def fixedFmt (q : ℚ) (dec : ℕ) : String :=
  let n : ℕ := (halfEvenRound (|q| * (10 : ℚ) ^ dec)).toNat
  let sign : String := if q < 0 then "-" else ""
  if dec = 0 then sign ++ natStr n
  else sign ++ natStr (n / 10 ^ dec) ++ "." ++ fracDigits (n % 10 ^ dec) dec

/-- Model of Python `int(q)` applied to a float: truncation toward zero. -/
def pyint (q : ℚ) : ℤ := if q < 0 then ⌈q⌉ else ⌊q⌋

/-- The canonical inch in millimetres. -/
def inch : ℚ := 254 / 10

/-- Model of `Units.Quantity(x, Length).getValueAs(u)` for the unit strings
the engine uses: `"in"` divides the canonical millimetre value by 25.4,
`"mm"` returns it unchanged. -/
def lengthValueAs (x : ℚ) (u : String) : ℚ :=
  if u = "in" then x / inch else x

/-- Model of `Units.Quantity(x, Velocity).getValueAs(u)`: the canonical unit
is millimetres per second, so `"mm/min"` multiplies by 60 and `"in/min"`
additionally divides by 25.4. -/
def speedValueAs (x : ℚ) (u : String) : ℚ :=
  if u = "in/min" then x * 60 / inch else x * 60

/-- Model of `fmt(num, dec, units)` (PostUtils.py lines 160-166): metric
(`"G21"`) formats the canonical value directly, anything else divides by
25.4 first, both at `dec` decimal places. -/
def fmt (num : ℚ) (dec : ℕ) (units : String) : String :=
  if units = "G21" then fixedFmt num dec else fixedFmt (num / inch) dec

/-- Whether one character list begins with another. -/
def listStartsWith : List Char → List Char → Bool
  | _, [] => true
  | [], _ :: _ => false
  | a :: as, b :: bs => a = b && listStartsWith as bs

/-- Whether a character list contains another as a contiguous run. -/
def listContains : List Char → List Char → Bool
  | [], needle => needle.isEmpty
  | a :: as, needle => listStartsWith (a :: as) needle || listContains as needle

/-- Model of Python's substring test `needle in s`. -/
def pyIn (needle s : String) : Bool :=
  listContains s.toList needle.toList

/-- `String.startsWith` on the underlying character lists. -/
def strStartsWith (s p : String) : Bool :=
  listStartsWith s.toList p.toList

/-- Split a character list at every occurrence of a separator. -/
def splitOnCharAux (sep : Char) : List Char → List Char → List (List Char)
  | [], acc => [acc.reverse]
  | c :: rest, acc =>
    if c = sep then acc.reverse :: splitOnCharAux sep rest []
    else splitOnCharAux sep rest (c :: acc)

/-- Model of Python `s.splitlines(False)` for strings whose only line
terminator is `"\n"`: split at newlines, ignoring one trailing
terminator. -/
def pySplitlines (s : String) : List String :=
  if s = "" then []
  else
    let p := (splitOnCharAux '\n' s.toList []).map String.mk
    if p.getLast? = some "" then p.dropLast else p

/-- Model of `fcoms(string, commentsym)` (lines 200-207): with a
one-character comment symbol, replace `(` by the symbol and delete `)`;
otherwise return the string unchanged. -/
def fcoms (string : String) (commentsym : String) : String :=
  if commentsym.length = 1 then
    String.mk
      ((string.toList.map
          (fun ch => if ch = '(' then commentsym.toList.headD ch else ch)).filter
        (fun ch => ch ≠ ')'))
  else string

/-- Model of `create_comment` (lines 241-247). -/
def create_comment (comment_string : String) (comment_symbol : String) : String :=
  if comment_symbol = "(" then "(" ++ comment_string ++ ")"
  else comment_symbol ++ comment_string

/-- A Python dict from single-letter parameter keys to numbers, as an
association list (first binding of a key wins on lookup). -/
abbrev Params := List (String × ℚ)

/-- Dict membership `k in d`. -/
def pmem (d : Params) (k : String) : Bool := d.any (fun kv => kv.1 = k)

/-- Dict lookup `d[k]` as an option. -/
def pfind (d : Params) (k : String) : Option ℚ :=
  (d.find? (fun kv => kv.1 = k)).map (fun kv => kv.2)

/-- Dict lookup `d[k]` that raises `KeyError` when the key is absent. -/
def pget (d : Params) (k : String) : Except PyErr ℚ :=
  match pfind d k with
  | some v => .ok v
  | none => .error .keyError

/-- Dict assignment `d[k] = v`: replace in place when the key exists,
append otherwise (CPython insertion-order semantics). -/
def pset (d : Params) (k : String) (v : ℚ) : Params :=
  if pmem d k then d.map (fun kv => if kv.1 = k then (k, v) else kv)
  else d ++ [(k, v)]

/-- Dict update `d.update(ps)`. -/
def pupdate (d : Params) (ps : Params) : Params :=
  ps.foldl (fun acc kv => pset acc kv.1 kv.2) d

/-- A `Path.Command`: a name plus a parameter dictionary. -/
structure Command where
  Name : String
  Parameters : Params
deriving DecidableEq, Repr

/-- The `values` dictionary threaded through the postprocessors: the
configuration model plus the mutable emitter state (current position,
modes, next line number).  Fields keep the Python keys' names. -/
structure Values where
  AXIS_PRECISION : ℕ
  COMMAND_SPACE : String
  COMMENT_SYMBOL : String
  CURRENT_X : ℚ
  CURRENT_Y : ℚ
  CURRENT_Z : ℚ
  DRILL_CYCLES_TO_TRANSLATE : List String
  DRILL_RETRACT_MODE : String
  ENABLE_COOLANT : Bool
  ENABLE_MACHINE_SPECIFIC_COMMANDS : Bool
  FEED_PRECISION : ℕ
  FINISH_LABEL : String
  LINE_INCREMENT : ℤ
  line_number : ℤ
  LIST_TOOLS_IN_PREAMBLE : Bool
  MODAL : Bool
  MOTION_COMMANDS : List String
  MOTION_MODE : String
  OUTPUT_BCNC : Bool
  OUTPUT_COMMENTS : Bool
  OUTPUT_HEADER : Bool
  OUTPUT_LINE_NUMBERS : Bool
  OUTPUT_DOUBLES : Bool
  OUTPUT_TOOL_CHANGE : Bool
  PARAMETER_ORDER : List String
  POSTAMBLE : String
  POST_OPERATION : String
  PREAMBLE : String
  PRE_OPERATION : String
  RAPID_MOVES : List String
  REMOVE_MESSAGES : Bool
  RETURN_TO : Option (ℚ × ℚ)
  SAFETYBLOCK : String
  SHOW_EDITOR : Bool
  SHOW_MACHINE_UNITS : Bool
  SHOW_OPERATION_LABELS : Bool
  SPINDLE_DECIMALS : ℕ
  SPINDLE_WAIT : ℚ
  STOP_SPINDLE_FOR_TOOL_CHANGE : Bool
  SUPPRESS_COMMANDS : List String
  TOOL_CHANGE : String
  TOOLRETURN : String
  TRANSLATE_DRILL_CYCLES : Bool
  UNITS : String
  UNIT_FORMAT : String
  UNIT_SPEED_FORMAT : String
  USE_TLO : Bool
  POSTPROCESSOR_FILE_NAME : String
deriving DecidableEq, Repr

/-- Model of `init_shared_values` (lines 418-524): the documented defaults. -/
def init_shared_values : Values where
  AXIS_PRECISION := 3
  COMMAND_SPACE := " "
  COMMENT_SYMBOL := "("
  CURRENT_X := 0
  CURRENT_Y := 0
  CURRENT_Z := 0
  DRILL_CYCLES_TO_TRANSLATE := ["G81", "G82", "G83"]
  DRILL_RETRACT_MODE := "G98"
  ENABLE_COOLANT := false
  ENABLE_MACHINE_SPECIFIC_COMMANDS := false
  FEED_PRECISION := 3
  FINISH_LABEL := "Finish"
  LINE_INCREMENT := 10
  line_number := 100
  LIST_TOOLS_IN_PREAMBLE := false
  MODAL := false
  MOTION_COMMANDS := ["G0", "G00", "G1", "G01", "G2", "G02", "G3", "G03"]
  MOTION_MODE := "G90"
  OUTPUT_BCNC := false
  OUTPUT_COMMENTS := true
  OUTPUT_HEADER := true
  OUTPUT_LINE_NUMBERS := false
  OUTPUT_DOUBLES := true
  OUTPUT_TOOL_CHANGE := true
  PARAMETER_ORDER :=
    ["X", "Y", "Z", "A", "B", "C", "U", "V", "W", "I", "J", "K",
     "F", "S", "T", "Q", "R", "L", "P"]
  POSTAMBLE := ""
  POST_OPERATION := ""
  PREAMBLE := ""
  PRE_OPERATION := ""
  RAPID_MOVES := ["G0", "G00"]
  REMOVE_MESSAGES := true
  RETURN_TO := none
  SAFETYBLOCK := ""
  SHOW_EDITOR := true
  SHOW_MACHINE_UNITS := true
  SHOW_OPERATION_LABELS := true
  SPINDLE_DECIMALS := 0
  SPINDLE_WAIT := 0
  STOP_SPINDLE_FOR_TOOL_CHANGE := true
  SUPPRESS_COMMANDS := []
  TOOL_CHANGE := ""
  TOOLRETURN := ""
  TRANSLATE_DRILL_CYCLES := false
  UNITS := "G21"
  UNIT_FORMAT := "mm"
  UNIT_SPEED_FORMAT := "mm/min"
  USE_TLO := true
  POSTPROCESSOR_FILE_NAME := ""

/-- Model of `linenumber(values, space)` (lines 527-535): returns the line
number token and the updated `values` (the counter advances only when line
numbering is on). -/
def linenumber (values : Values) (space : Option String) : String × Values :=
  if values.OUTPUT_LINE_NUMBERS then
    let sp := space.getD values.COMMAND_SPACE
    ("N" ++ toString values.line_number ++ sp,
      { values with line_number := values.line_number + values.LINE_INCREMENT })
  else ("", values)

/-- Strip leading and trailing whitespace, as Python `str.strip()`. -/
def strTrim (s : String) : String :=
  String.mk
    (((s.toList.dropWhile (fun c => c.isWhitespace)).reverse.dropWhile
        (fun c => c.isWhitespace)).reverse)

/-- Model of `format_outstring(values, strTable)` (lines 409-415). -/
def format_outstring (values : Values) (strTable : List String) : String :=
  strTrim (strTable.foldl (fun s w => s ++ w ++ values.COMMAND_SPACE) "")

/-- The parameter-emission step of `parse` for one key of the configured
parameter order (lines 586-629): returns the token to append to the
output line, if any.  `currLocation` is the doubles-suppression memory,
which in `parse` always contains X, Y, Z and F, so the feed comparison's
dictionary lookup is modelled on optional lookups. -/
def emitParam (values : Values) (currLocation : Params) (c : Command)
    (param : String) : Option String :=
  if ¬ pmem c.Parameters param then none
  else if param = "F" then
    if pfind currLocation "F" ≠ pfind c.Parameters "F" || values.OUTPUT_DOUBLES then
      if c.Name ∈ values.RAPID_MOVES then none
      else
        let speed := speedValueAs ((pfind c.Parameters "F").getD 0)
          values.UNIT_SPEED_FORMAT
        if speed > 0 then
          some ("F" ++ fixedFmt speed values.FEED_PRECISION)
        else none
    else
      -- the `elif` chain falls through to the axis branch, whose doubles
      -- test suppresses the repeated value again
      if ¬ values.OUTPUT_DOUBLES ∧ pmem currLocation "F"
          ∧ pfind currLocation "F" = pfind c.Parameters "F" then none
      else
        some ("F" ++ fixedFmt
          (lengthValueAs ((pfind c.Parameters "F").getD 0) values.UNIT_FORMAT)
          values.AXIS_PRECISION)
  else if param = "T" then
    some ("T" ++ toString (pyint ((pfind c.Parameters "T").getD 0)))
  else if param = "H" then
    some ("H" ++ toString (pyint ((pfind c.Parameters "H").getD 0)))
  else if param = "D" ∨ param = "L" ∨ param = "P" then
    some (param ++ toString (pyint ((pfind c.Parameters param).getD 0)))
  else if param = "S" then
    some ("S" ++ fmt ((pfind c.Parameters "S").getD 0) values.SPINDLE_DECIMALS "G21")
  else
    if ¬ values.OUTPUT_DOUBLES ∧ pmem currLocation param
        ∧ pfind currLocation param = pfind c.Parameters param then none
    else
      some (param ++ fixedFmt
        (lengthValueAs ((pfind c.Parameters param).getD 0) values.UNIT_FORMAT)
        values.AXIS_PRECISION)

/-- The whole parameter loop of `parse` (lines 586-629): one token per
recognized key present in the command, walked in the configured order. -/
def paramTokens (values : Values) (currLocation : Params) (c : Command) :
    List String :=
  values.PARAMETER_ORDER.filterMap (emitParam values currLocation c)

/-- Model of a call `linenumber()` with no arguments (PostUtils.py lines
259, 274, 302, 320, 322, 333, 343, 350, 351, 360, 371, 379, 383, 391, 398,
796 and 888): `linenumber` requires its positional `values` argument, so
the call raises `TypeError` before anything is concatenated. -/
def linenumber_missing_values : Except PyErr String := .error .typeError

/-- Monad for the `try` block of `drill_translate` (lines 300-392):
exceptions abort the block, but the part of the buffer appended before the
exception persists (the `except Exception: pass` keeps `trBuff`). -/
abbrev TryM := ExceptT PyErr (StateM String)

/-- Append a piece to the buffer being built inside the `try` block. -/
def emitT (s : String) : TryM Unit := modify (fun b => b ++ s)

/-- The no-argument `linenumber()` calls inside the `try` block. -/
def linenumberNoArgsT : TryM String := throw PyErr.typeError

/-- Best-effort model of Python `str` on a float with a short exact decimal
form (integers print with a trailing `.0`).  It is referenced only on
paths that raise a `TypeError` from `linenumber()` first, so its value is
never observable. -/
def pyStrNum (q : ℚ) : String :=
  if q.den = 1 then toString q.num ++ ".0"
  else
    let dec := ((List.range 17).find? (fun d => (q * 10 ^ (d + 1)).den = 1)).getD 16
    fixedFmt q (dec + 1)

/-- The G83 peck loop (lines 353-392).  Every iteration begins with an
append whose first operand is a no-argument `linenumber()` call, so each
iteration raises `TypeError`; the fuel bound is therefore never the reason
the loop stops. -/
def g83_loop (values : Values) (drill_Z RETRACT_Z drill_Step a_bit : ℚ)
    (strG0_RETRACT_Z strF_Feedrate : String) : ℕ → ℚ → TryM Unit
  | 0, _ => pure ()
  | fuel + 1, last_Stop_Z => do
    if last_Stop_Z ≠ RETRACT_Z then
      let clearance_depth := last_Stop_Z + a_bit
      let n ← linenumberNoArgsT
      emitT (n ++ "G0 Z"
        ++ fixedFmt (lengthValueAs clearance_depth values.UNIT_FORMAT)
          values.AXIS_PRECISION ++ "\n")
    let next_Stop_Z := last_Stop_Z - drill_Step
    if next_Stop_Z > drill_Z then do
      let n ← linenumberNoArgsT
      emitT (n ++ "G1 Z"
        ++ fixedFmt (lengthValueAs next_Stop_Z values.UNIT_FORMAT)
          values.AXIS_PRECISION ++ strF_Feedrate)
      let n2 ← linenumberNoArgsT
      emitT (n2 ++ strG0_RETRACT_Z)
      g83_loop values drill_Z RETRACT_Z drill_Step a_bit strG0_RETRACT_Z
        strF_Feedrate fuel next_Stop_Z
    else do
      let n ← linenumberNoArgsT
      emitT (n ++ "G1 Z"
        ++ fixedFmt (lengthValueAs drill_Z values.UNIT_FORMAT)
          values.AXIS_PRECISION ++ strF_Feedrate)
      let n2 ← linenumberNoArgsT
      emitT (n2 ++ strG0_RETRACT_Z)

/-- The `try` block of `drill_translate` (lines 300-392). -/
def drill_try (values : Values)
    (drill_X drill_Y drill_Z RETRACT_Z drill_feedrate : ℚ)
    (drill_Step a_bit drill_DwellTime : Option ℚ) (cmd : String)
    (params : Params) (fuel : ℕ) : TryM Unit := do
  if values.MOTION_MODE = "G91" then
    let n ← linenumberNoArgsT
    emitT (n ++ "G90\n")
  let strG0_RETRACT_Z := "G0 Z"
    ++ fixedFmt (lengthValueAs RETRACT_Z values.UNIT_FORMAT)
      values.AXIS_PRECISION ++ "\n"
  let strF_Feedrate := " F"
    ++ fixedFmt (speedValueAs drill_feedrate values.UNIT_SPEED_FORMAT)
      values.FEED_PRECISION ++ "\n"
  if values.CURRENT_Z < RETRACT_Z then
    let n ← linenumberNoArgsT
    emitT (n ++ strG0_RETRACT_Z)
  let n0 ← linenumberNoArgsT
  emitT (n0 ++ "G0 X"
    ++ fixedFmt (lengthValueAs drill_X values.UNIT_FORMAT) values.AXIS_PRECISION
    ++ " Y"
    ++ fixedFmt (lengthValueAs drill_Y values.UNIT_FORMAT) values.AXIS_PRECISION
    ++ "\n")
  if values.CURRENT_Z > RETRACT_Z then
    let n ← linenumberNoArgsT
    emitT (n ++ "G1 Z"
      ++ fixedFmt (lengthValueAs RETRACT_Z values.UNIT_FORMAT)
        values.AXIS_PRECISION ++ strF_Feedrate)
  let last_Stop_Z := RETRACT_Z
  if cmd = "G81" ∨ cmd = "G82" then do
    let n ← linenumberNoArgsT
    emitT (n ++ "G1 Z"
      ++ fixedFmt (lengthValueAs drill_Z values.UNIT_FORMAT)
        values.AXIS_PRECISION ++ strF_Feedrate)
    if cmd = "G82" then
      let n2 ← linenumberNoArgsT
      emitT (n2 ++ "G4 P" ++ pyStrNum (drill_DwellTime.getD 0) ++ "\n")
    let n3 ← linenumberNoArgsT
    emitT (n3 ++ strG0_RETRACT_Z)
  else do
    let q ← match pget params "Q" with
      | .ok v => pure v
      | .error e => throw e
    if q ≠ 0 then
      match drill_Step, a_bit with
      | some st, some ab =>
        g83_loop values drill_Z RETRACT_Z st ab strG0_RETRACT_Z strF_Feedrate
          fuel last_Stop_Z
      | _, _ =>
        -- cmd was not G83, so drill_Step and a_bit were never assigned
        throw PyErr.nameError

/-- Model of `drill_translate(values, outstring, cmd, params)` (lines
250-400).  Every buffer append in the function calls `linenumber()` with
no arguments, which raises `TypeError`; inside the `try` block such
exceptions are swallowed with the partial buffer kept, outside it they
escape to the caller. -/
def drill_translate (values : Values) (outstring : List String) (cmd : String)
    (params : Params) (fuel : ℕ) : Except PyErr String := do
  let trBuff := ""
  if values.OUTPUT_COMMENTS then
    -- trBuff += linenumber() + create_comment(format_outstring(outstring), ..)
    -- both inner calls are missing required arguments; linenumber() raises
    let _ ← linenumber_missing_values
  let drill_X ← pget params "X"
  let drill_Y ← pget params "Y"
  let drill_Z ← pget params "Z"
  let RETRACT_Z ← pget params "R"
  if RETRACT_Z < drill_Z then
    -- trBuff += linenumber() + create_comment("drill cycle error: ...") + nl
    let _ ← linenumber_missing_values
    return trBuff
  let (drill_X, drill_Y, drill_Z, RETRACT_Z) :=
    if values.MOTION_MODE = "G91" then
      (drill_X + values.CURRENT_X, drill_Y + values.CURRENT_Y,
        drill_Z + values.CURRENT_Z, RETRACT_Z + values.CURRENT_Z)
    else (drill_X, drill_Y, drill_Z, RETRACT_Z)
  let RETRACT_Z :=
    if values.DRILL_RETRACT_MODE = "G98" ∧ values.CURRENT_Z ≥ RETRACT_Z then
      values.CURRENT_Z
    else RETRACT_Z
  let drill_feedrate ← pget params "F"
  let (drill_Step, a_bit) ←
    if cmd = "G83" then do
      let q ← pget params "Q"
      pure (some q, some (q * (5 / 100)))
    else pure (none, none)
  let drill_DwellTime ←
    if cmd = "G82" then do
      let p ← pget params "P"
      pure (some p)
    else pure (none : Option ℚ)
  let (_tryResult, trBuff) :=
    (drill_try values drill_X drill_Y drill_Z RETRACT_Z drill_feedrate
      drill_Step a_bit drill_DwellTime cmd params fuel).run trBuff
  if values.MOTION_MODE = "G91" then
    -- trBuff += linenumber() + "G91\n" : the call raises TypeError, which
    -- escapes drill_translate because it is outside the try block
    let _ ← linenumber_missing_values
  return trBuff

/-- The `out` accumulator of `parse`.  It is a string until the branch at
line 689 executes `out = []`, after which it is a Python list that string
appends extend character by character. -/
inductive PyOut where
  | s (v : String)
  | l (v : List Char)
deriving DecidableEq, Repr

/-- Model of `out += t` for a string `t`: strings concatenate, a list is
extended with the characters of `t`. -/
def pyAppend (out : PyOut) (t : String) : PyOut :=
  match out with
  | .s v => .s (v ++ t)
  | .l v => .l (v ++ t.toList)

/-- The per-path-object loop state of `parse`: the previous emitted command
token (for modal suppression) and the doubles-suppression memory. -/
structure LoopSt where
  lastcommand : Option String
  currLocation : Params
deriving DecidableEq, Repr

/-- Lines 570-578: determine the textual command token.  `none` models the
`continue` that skips a parenthesis comment when comments are off;
an empty name would raise `IndexError` on `command[0]`. -/
def commandToken (values : Values) (c : Command) : Except PyErr (Option String) :=
  if c.Name = "" then .error .indexError
  else if strStartsWith c.Name "(" then
    if values.OUTPUT_COMMENTS then
      if values.COMMENT_SYMBOL ≠ "(" then
        .ok (some (fcoms c.Name values.COMMENT_SYMBOL))
      else .ok (some c.Name)
    else .ok none
  else .ok (some c.Name)

/-- Lines 636-643: update the tracked position for motion commands, one
axis at a time, for the axis keys actually present. -/
def positionUpdate (values : Values) (command : String) (c : Command) : Values :=
  if command ∈ values.MOTION_COMMANDS then
    let values :=
      match pfind c.Parameters "X" with
      | some x => { values with CURRENT_X := x }
      | none => values
    let values :=
      match pfind c.Parameters "Y" with
      | some y => { values with CURRENT_Y := y }
      | none => values
    match pfind c.Parameters "Z" with
    | some z => { values with CURRENT_Z := z }
    | none => values
  else values

/-- Lines 645-649: update the drill-retract mode and the motion mode. -/
def modeUpdate (values : Values) (command : String) : Values :=
  let values :=
    if command = "G98" ∨ command = "G99" then
      { values with DRILL_RETRACT_MODE := command }
    else values
  if command = "G90" ∨ command = "G91" then
    { values with MOTION_MODE := command }
  else values

/-- Lines 636-649: update the tracked position for motion commands and the
retract/motion modes. -/
def updateModes (values : Values) (command : String) (c : Command) : Values :=
  modeUpdate (positionUpdate values command c) command

/-- Lines 720-724: the regex match for machine-specific passthrough
comments of the form `(MC_RUN_COMMAND: raw)`. -/
def mcRunMatch (s : String) : Option String :=
  if strStartsWith s "(MC_RUN_COMMAND: " ∧ s.toList.getLast? = some ')' then
    let raw := String.mk ((s.toList.drop 17).dropLast)
    if raw ≠ "" ∧ ¬ raw.toList.any (fun ch => ch = ')') then some raw else none
  else none

/-- The `for line in values["TOOL_CHANGE"].splitlines(False)` loop of the
tool-change branch (lines 676-677), appending to the loop's `out`. -/
def emitLinesOut (out : PyOut) (values : Values) (text : String) :
    PyOut × Values :=
  (pySplitlines text).foldl
    (fun ov line =>
      (pyAppend ov.1 ((linenumber ov.2 none).1 ++ line ++ "\n"),
        (linenumber ov.2 none).2)) (out, values)

/-- The drill-translation branch (lines 651-655) acting on the loop state
`(values, out, outstring)`. -/
def drillStage (command : String) (c : Command) (fuel : ℕ)
    (s : Values × PyOut × List String) :
    Except PyErr (Values × PyOut × List String) :=
  if s.1.TRANSLATE_DRILL_CYCLES ∧ command ∈ s.1.DRILL_CYCLES_TO_TRANSLATE then
    match drill_translate s.1 s.2.2 command c.Parameters fuel with
    | .error e => .error e
    | .ok tr => .ok (s.1, pyAppend s.2.1 tr, [])
  else .ok s

/-- The spindle-start-wait branch (lines 657-665): the line it builds calls
`format_outstring(outstring)` without the required `strTable` argument and
raises `TypeError`. -/
def spindleStage (command : String) (s : Values × PyOut × List String) :
    Except PyErr (Values × PyOut × List String) :=
  if s.1.SPINDLE_WAIT > 0
      ∧ (command = "M3" ∨ command = "M03" ∨ command = "M4" ∨ command = "M04")
  then .error PyErr.typeError
  else .ok s

/-- The tool-change branch (lines 667-685). -/
def toolChangeStage (command : String) (s : Values × PyOut × List String) :
    Except PyErr (Values × PyOut × List String) :=
  if command = "M6" ∨ command = "M06" then
    let values := s.1
    let out := s.2.1
    let outstring := s.2.2
    let out1 :=
      if values.OUTPUT_COMMENTS then
        pyAppend out
          ((linenumber values none).1
            ++ create_comment "Begin toolchange"
              (linenumber values none).2.COMMENT_SYMBOL ++ "\n")
      else out
    let values1 :=
      if values.OUTPUT_COMMENTS then (linenumber values none).2 else values
    if values1.OUTPUT_TOOL_CHANGE then
      let out2 :=
        if values1.STOP_SPINDLE_FOR_TOOL_CHANGE then
          pyAppend out1 ((linenumber values1 none).1 ++ "M5\n")
        else out1
      let values2 :=
        if values1.STOP_SPINDLE_FOR_TOOL_CHANGE then
          (linenumber values1 none).2
        else values1
      .ok ((emitLinesOut out2 values2 values2.TOOL_CHANGE).2,
        (emitLinesOut out2 values2 values2.TOOL_CHANGE).1, outstring)
    else
      if values1.OUTPUT_COMMENTS then
        -- create_comment(format_outstring(outstring), ...) : the inner
        -- call is missing its strTable argument and raises TypeError
        .error PyErr.typeError
      else .ok (values1, out1, outstring)
  else .ok s

/-- The message-removal branch (lines 687-691): with comments off the
Python code executes `out = []`, turning the accumulator into a list. -/
def messageStage (command : String) (s : Values × PyOut × List String) :
    Except PyErr (Values × PyOut × List String) :=
  if command = "message" ∧ s.1.REMOVE_MESSAGES then
    if s.1.OUTPUT_COMMENTS = false then .ok (s.1, PyOut.l [], s.2.2)
    else
      match s.2.2 with
      | [] => .error PyErr.indexError
      | _ :: rest => .ok (s.1, s.2.1, rest)
  else .ok s

/-- The suppressed-command branch (lines 693-699): with comments on,
`create_comment(format_outstring(outstring), ...)` raises `TypeError`. -/
def suppressStage (command : String) (s : Values × PyOut × List String) :
    Except PyErr (Values × PyOut × List String) :=
  if command ∈ s.1.SUPPRESS_COMMANDS then
    if s.1.OUTPUT_COMMENTS then .error PyErr.typeError
    else .ok (s.1, s.2.1, [])
  else .ok s

/-- The line-assembly step (lines 701-712): join the surviving tokens with
the command separator, prefixed by a line number when enabled. -/
def assembleStage (s : Values × PyOut × List String) :
    Values × PyOut × List String :=
  let values := s.1
  let out := s.2.1
  let outstring := s.2.2
  if outstring.length ≥ 1 then
    let outstring2 :=
      if values.OUTPUT_LINE_NUMBERS then
        (linenumber values (some "")).1 :: outstring
      else outstring
    let values2 :=
      if values.OUTPUT_LINE_NUMBERS then (linenumber values (some "")).2
      else values
    (values2,
      pyAppend
        (pyAppend out (String.intercalate values2.COMMAND_SPACE outstring2))
        "\n", outstring2)
  else s

/-- The tool-length-offset step (lines 714-716): `linenumber(values)` runs
first, then `c.Parameters["T"]` may raise `KeyError`. -/
def tloStage (command : String) (c : Command)
    (s : Values × PyOut × List String) :
    Except PyErr (Values × PyOut × List String) :=
  if (command = "M6" ∨ command = "M06") ∧ s.1.USE_TLO then
    match pget c.Parameters "T" with
    | .error e => .error e
    | .ok t =>
      .ok ((linenumber s.1 none).2,
        pyAppend s.2.1
          ((linenumber s.1 none).1 ++ "G43 H" ++ toString (pyint t) ++ "\n"),
        s.2.2)
  else .ok s

/-- The machine-specific passthrough step (lines 718-724). -/
def mcStage (command : String) (s : Values × PyOut × List String) :
    Values × PyOut × List String :=
  if s.1.ENABLE_MACHINE_SPECIFIC_COMMANDS then
    match mcRunMatch command with
    | some raw =>
      ((linenumber s.1 none).2,
        pyAppend s.2.1 ((linenumber s.1 none).1 ++ raw ++ "\n"), s.2.2)
    | none => s
  else s

/-- Lines 651-724 of the per-command loop: everything after the mode
updates, as the composition of the stages above. -/
def afterModes (values : Values) (command : String) (c : Command)
    (outstring : List String) (out : PyOut) (fuel : ℕ) :
    Except PyErr (Values × PyOut) := do
  let s1 ← drillStage command c fuel (values, out, outstring)
  let s2 ← spindleStage command s1
  let s3 ← toolChangeStage command s2
  let s4 ← messageStage command s3
  let s5 ← suppressStage command s4
  let s6 := assembleStage s5
  let s7 ← tloStage command c s6
  let s8 := mcStage command s7
  return (s8.1, s8.2.1)

/-- One iteration of the per-command loop of `parse` (lines 566-724). -/
def parse_one (values : Values) (st : LoopSt) (out : PyOut) (c : Command)
    (fuel : ℕ) : Except PyErr (Values × LoopSt × PyOut) := do
  match ← commandToken values c with
  | none => return (values, st, out)
  | some command =>
    let outstring := [command]
    let outstring :=
      if values.MODAL ∧ st.lastcommand = some command then outstring.drop 1
      else outstring
    let outstring := outstring ++ paramTokens values st.currLocation c
    let lastcommand := some command
    let currLocation := pupdate st.currLocation c.Parameters
    let values := updateModes values command c
    let (values, out) ← afterModes values command c outstring out fuel
    return (values, ⟨lastcommand, currLocation⟩, out)

/-- The whole per-command loop over a path's command list. -/
def runCmds (values : Values) (st : LoopSt) (out : PyOut)
    (cmds : List Command) (fuel : ℕ) : Except PyErr (Values × LoopSt × PyOut) :=
  match cmds with
  | [] => .ok (values, st, out)
  | c :: rest => do
    let (values, st, out) ← parse_one values st out c fuel
    runCmds values st out rest fuel

/-- Line 546: the synthetic first move whose parameters seed the
doubles-suppression memory. -/
def firstmove : Command := ⟨"G0", [("X", -1), ("Y", -1), ("Z", -1), ("F", 0)]⟩

/-- Lines 545-547: the initial `currLocation` dictionary. -/
def initialLocation : Params := pupdate [] firstmove.Parameters

/-- The specification-side description of position tracking, stated in the
claim's own words: the tracked value of an axis equals the value carried by
the most recent command whose name is in the configured motion-command set
and which mentions that axis explicitly; all other commands leave it
unchanged.  Compared with the engine's state below. -/
def specAxisTrack (motion : List String) (axis : String) (init : ℚ)
    (cmds : List Command) : ℚ :=
  cmds.foldl
    (fun cur c =>
      if c.Name ∈ motion ∧ pmem c.Parameters axis = true then
        (pfind c.Parameters axis).getD cur
      else cur) init

/-- The default configuration with command echoing disabled, so that
`drill_translate` reaches its cycle logic instead of raising in the
comment echo. -/
def vNoComments : Values := { init_shared_values with OUTPUT_COMMENTS := false }

/-- The same configuration in relative (G91) motion mode. -/
def vRelative : Values := { vNoComments with MOTION_MODE := "G91" }

/-- A quiet configuration whose preamble supplies the G90 line itself, so
that `export_common` gets past the motion-mode emission. -/
def vPlainPreamble : Values :=
  { init_shared_values with
    OUTPUT_COMMENTS := false, OUTPUT_HEADER := false, PREAMBLE := "G90" }

mutual
/-- A path-source object.  Optional fields model optional attributes:
`none` means `hasattr` is false.  `baseActive?` (resp. `baseCoolant?`)
being `some` models an existing `Base` attribute whose `Active` (resp.
`CoolantMode`) attribute exists. -/
inductive PathObj where
  | mk (label : String) (active? baseActive? : Option Bool)
      (coolant? baseCoolant? : Option String) (payload : PathPayload)

/-- What kind of object a `PathObj` is: a compound with a `Group`
attribute (which may or may not also expose a `Path` attribute), a simple
object with a `Path` attribute, or anything else (e.g. stock). -/
inductive PathPayload where
  | group (groupHasPath : Bool) (children : List PathObj)
  | path (cmds : List Command)
  | other
end

/-- The display label of an object. -/
def PathObj.label : PathObj → String
  | .mk l _ _ _ _ _ => l

/-- The `Active` attribute, when present. -/
def PathObj.activeFlag : PathObj → Option Bool
  | .mk _ a _ _ _ _ => a

/-- The `Base.Active` attribute, when `Base` exists and has it. -/
def PathObj.baseActiveFlag : PathObj → Option Bool
  | .mk _ _ b _ _ _ => b

/-- The `CoolantMode` attribute, when present. -/
def PathObj.coolantMode? : PathObj → Option String
  | .mk _ _ _ cm _ _ => cm

/-- The `Base.CoolantMode` attribute, when present. -/
def PathObj.baseCoolantMode? : PathObj → Option String
  | .mk _ _ _ _ bcm _ => bcm

/-- The payload of an object. -/
def PathObj.payload : PathObj → PathPayload
  | .mk _ _ _ _ _ p => p

/-- Model of `hasattr(obj, "Path")`. -/
def hasPathAttr (obj : PathObj) : Bool :=
  match obj.payload with
  | .group h _ => h
  | .path _ => true
  | .other => false

/-- A path operation whose own Active flag is false, holding one motion
command. -/
def inactiveChild : PathObj :=
  .mk "child" (some false) none none none
    (.path [⟨"G1", [("X", 5), ("F", 300)]⟩])

/-- A compound whose only member is the inactive operation above. -/
def wrapperGroup : PathObj :=
  .mk "grp" none none none none (.group true [inactiveChild])

/-- A single path object with an empty command list. -/
def emptyPathObject : PathObj :=
  .mk "testpath" none none none none (.path [])

mutual
/-- Model of `parse(values, pathobj)` (lines 538-726).  Compounds recurse
into their members; a member without a `Path` attribute contributes
nothing; a simple path runs the per-command loop with a fresh
`lastcommand`/`currLocation`. -/
def parse (values : Values) (pathobj : PathObj) (fuel : ℕ) :
    Except PyErr (PyOut × Values) :=
  match pathobj with
  | .mk label _ _ _ _ (.group _ children) => do
    let (out, values) :=
      if values.OUTPUT_COMMENTS then
        let (n, v2) := linenumber values none
        (n ++ create_comment ("compound: " ++ label) v2.COMMENT_SYMBOL ++ "\n",
          v2)
      else ("", values)
    let (out, values) ← parseChildren values children fuel out
    pure (.s out, values)
  | .mk _ _ _ _ _ .other => pure (.s "", values)
  | .mk label _ _ _ _ (.path cmds) => do
    let (out, values) :=
      if values.OUTPUT_COMMENTS then
        let (n, v2) := linenumber values none
        (n ++ create_comment ("Path: " ++ label) v2.COMMENT_SYMBOL ++ "\n", v2)
      else ("", values)
    let (values, _st, out) ←
      runCmds values ⟨none, initialLocation⟩ (.s out) cmds fuel
    pure (out, values)

/-- The `for p in pathobj.Group: out += parse(values, p)` loop.  The
accumulator is a string; a child whose loop executed `out = []` returns a
list, and `str += list` raises `TypeError`. -/
def parseChildren (values : Values) (objs : List PathObj) (fuel : ℕ)
    (acc : String) : Except PyErr (String × Values) :=
  match objs with
  | [] => .ok (acc, values)
  | o :: rest => do
    let (child, values) ← parse values o fuel
    match child with
    | .s s2 => parseChildren values rest fuel (acc ++ s2)
    | .l _ => throw PyErr.typeError
end

/-- Model of `str + out` where `out` may be a Python list (`TypeError`). -/
def strPlusOut (s : String) (out : PyOut) : Except PyErr String :=
  match out with
  | .s v => .ok (s ++ v)
  | .l _ => .error .typeError

/-- Emit the lines of a configured text block, each with a line number
(the `for line in ...splitlines(False)` loops). -/
def emitLines (gcode : String) (values : Values) (text : String) :
    String × Values :=
  (pySplitlines text).foldl
    (fun gv line =>
      let (n, v2) := linenumber gv.2 none
      (gv.1 ++ n ++ line ++ "\n", v2)) (gcode, values)

/-- The three bCNC block comments (lines 824-830 and 891-897). -/
def bcncBlock (gcode : String) (values : Values) (label : String) :
    String × Values :=
  let (n1, values) := linenumber values none
  let gcode := gcode ++ n1
    ++ create_comment ("Block-name: " ++ label) values.COMMENT_SYMBOL ++ "\n"
  let (n2, values) := linenumber values none
  let gcode := gcode ++ n2
    ++ create_comment "Block-expand: 0" values.COMMENT_SYMBOL ++ "\n"
  let (n3, values) := linenumber values none
  (gcode ++ n3 ++ create_comment "Block-enable: 1" values.COMMENT_SYMBOL ++ "\n",
    values)

/-- The body of the per-object loop of `export_common` (lines 808-885):
skip inactive top-level operations, emit the pre-operation block, coolant
on, the parsed operation, the post-operation block, coolant off. -/
def export_one (values : Values) (obj : PathObj) (fuel : ℕ) :
    Except PyErr (String × Values) :=
  if obj.activeFlag = some false then .ok ("", values)
  else if obj.baseActiveFlag = some false then .ok ("", values)
  else do
  let gcode := ""
  let (gcode, values) :=
    if values.OUTPUT_BCNC then bcncBlock gcode values obj.label
    else (gcode, values)
  let (gcode, values) :=
    if values.OUTPUT_COMMENTS then
      let (n, v2) := linenumber values none
      let comment :=
        if v2.SHOW_OPERATION_LABELS then
          create_comment ("begin operation: " ++ obj.label) v2.COMMENT_SYMBOL
        else create_comment "begin operation" v2.COMMENT_SYMBOL
      let gcode := gcode ++ n ++ comment ++ "\n"
      if v2.SHOW_MACHINE_UNITS then
        let (n2, v3) := linenumber v2 none
        (gcode ++ n2
          ++ create_comment ("machine units: " ++ v3.UNIT_SPEED_FORMAT)
            v3.COMMENT_SYMBOL ++ "\n", v3)
      else (gcode, v2)
    else (gcode, values)
  let (gcode, values) := emitLines gcode values values.PRE_OPERATION
  let coolantMode :=
    match obj.coolantMode?, obj.baseCoolantMode? with
    | some cm, _ => cm
    | none, some bc => bc
    | none, none => "None"
  let (gcode, values) :=
    if values.ENABLE_COOLANT then
      let (gcode, values) :=
        if values.OUTPUT_COMMENTS ∧ coolantMode ≠ "None" then
          let (n, v2) := linenumber values none
          (gcode ++ n
            ++ create_comment ("Coolant On:" ++ coolantMode) v2.COMMENT_SYMBOL
            ++ "\n", v2)
        else (gcode, values)
      let (gcode, values) :=
        if coolantMode = "Flood" then
          let (n, v2) := linenumber values none
          (gcode ++ n ++ "M8" ++ "\n", v2)
        else (gcode, values)
      if coolantMode = "Mist" then
        let (n, v2) := linenumber values none
        (gcode ++ n ++ "M7" ++ "\n", v2)
      else (gcode, values)
    else (gcode, values)
  let (out, values) ← parse values obj fuel
  let gcode ← strPlusOut gcode out
  let (gcode, values) :=
    if values.OUTPUT_COMMENTS then
      let (n, v2) := linenumber values none
      (gcode ++ n
        ++ create_comment (v2.FINISH_LABEL ++ " operation: " ++ obj.label)
          v2.COMMENT_SYMBOL ++ "\n", v2)
    else (gcode, values)
  let (gcode, values) := emitLines gcode values values.POST_OPERATION
  let (gcode, values) :=
    if values.ENABLE_COOLANT ∧ coolantMode ≠ "None" then
      let (gcode, values) :=
        if values.OUTPUT_COMMENTS then
          let (n, v2) := linenumber values none
          (gcode ++ n
            ++ create_comment ("Coolant Off:" ++ coolantMode) v2.COMMENT_SYMBOL
            ++ "\n", v2)
        else (gcode, values)
      let (n, v2) := linenumber values none
      (gcode ++ n ++ "M9" ++ "\n", v2)
    else (gcode, values)
  return (gcode, values)

/-- The per-object loop of `export_common` over the whole export list. -/
def exportObjs (values : Values) (objs : List PathObj) (fuel : ℕ)
    (gcode : String) : Except PyErr (String × Values) :=
  match objs with
  | [] => .ok (gcode, values)
  | o :: rest => do
    let (chunk, values) ← export_one values o fuel
    exportObjs values rest fuel (gcode ++ chunk)

/-- Model of `export_common(values, objectslist, filename)` (lines
729-928).  `cam_file` and `now` stand for the ambient document name and
timestamp; file writing and the editor dialog are I/O outside the model.
The result is `(none, values)` for the early `return None`, otherwise the
final text. -/
def export_common (values : Values) (objectslist : List PathObj)
    (cam_file : String) (now : String) (fuel : ℕ) :
    Except PyErr (Option String × Values) := do
  if objectslist.any (fun obj => ¬ hasPathAttr obj) then
    return (none, values)
  let gcode := ""
  let (gcode, values) :=
    if values.OUTPUT_HEADER then
      let (n1, values) := linenumber values none
      let gcode := gcode ++ n1
        ++ create_comment "Exported by FreeCAD" values.COMMENT_SYMBOL ++ "\n"
      let (n2, values) := linenumber values none
      let gcode := gcode ++ n2
        ++ create_comment ("Post Processor: " ++ values.POSTPROCESSOR_FILE_NAME)
          values.COMMENT_SYMBOL ++ "\n"
      let (n3, values) := linenumber values none
      let gcode := gcode ++ n3
        ++ create_comment ("Cam File: " ++ cam_file) values.COMMENT_SYMBOL
        ++ "\n"
      let (n4, values) := linenumber values none
      (gcode ++ n4
        ++ create_comment ("Output Time:" ++ now) values.COMMENT_SYMBOL ++ "\n",
        values)
    else (gcode, values)
  let values :=
    if values.TRANSLATE_DRILL_CYCLES then
      { values with
        SUPPRESS_COMMANDS := values.SUPPRESS_COMMANDS ++ ["G99", "G98", "G80"] }
    else values
  let (gcode, values) := emitLines gcode values values.SAFETYBLOCK
  -- tool listing in the preamble needs a ToolController proxy, which no
  -- modelled object is, so it contributes nothing
  let (gcode, values) :=
    if values.OUTPUT_COMMENTS then
      let (n, v2) := linenumber values none
      (gcode ++ n ++ create_comment "begin preamble" v2.COMMENT_SYMBOL ++ "\n",
        v2)
    else (gcode, values)
  let (gcode, values) := emitLines gcode values values.PREAMBLE
  let (gcode, values) ←
    if pyIn "G90" values.PREAMBLE then
      pure (gcode, { values with MOTION_MODE := "G90" })
    else if pyIn "G91" values.PREAMBLE then
      pure (gcode, { values with MOTION_MODE := "G91" })
    else do
      -- gcode += linenumber() + values["MOTION_MODE"] + "\n" : linenumber()
      -- is missing its values argument and raises TypeError
      let _ ← linenumber_missing_values
      pure (gcode, values)
  let (gcode, values) :=
    if pyIn "G21" values.PREAMBLE then
      (gcode, { values with
        UNITS := "G21", UNIT_FORMAT := "mm", UNIT_SPEED_FORMAT := "mm/min" })
    else if pyIn "G20" values.PREAMBLE then
      (gcode, { values with
        UNITS := "G20", UNIT_FORMAT := "in", UNIT_SPEED_FORMAT := "in/min" })
    else
      let (n, v2) := linenumber values none
      (gcode ++ n ++ values.UNITS ++ "\n", v2)
  let (gcode, values) ← exportObjs values objectslist fuel gcode
  if values.RETURN_TO.isSome then
    -- gcode += linenumber() + "G0 X%s Y%s\n" % ... : linenumber() raises
    let _ ← linenumber_missing_values
  let (gcode, values) :=
    if values.OUTPUT_BCNC then bcncBlock gcode values "post_amble"
    else (gcode, values)
  let (gcode, values) :=
    if values.OUTPUT_COMMENTS then
      let (n, v2) := linenumber values none
      (gcode ++ n ++ create_comment "begin postamble" v2.COMMENT_SYMBOL ++ "\n",
        v2)
    else (gcode, values)
  let (gcode, values) := emitLines gcode values values.TOOLRETURN
  let (gcode, values) := emitLines gcode values values.SAFETYBLOCK
  let (gcode, values) := emitLines gcode values values.POSTAMBLE
  -- the editor dialog and the file write are outside the model
  return (some gcode, values)

/-! ### Helper lemmas -/

theorem decDigitsAux_eq : ∀ fuel n, n ≤ fuel → decDigitsAux fuel n = Nat.digits 10 n := by
  intro fuel
  induction fuel with
  | zero =>
    intro n hn
    have : n = 0 := by omega
    subst this
    simp [decDigitsAux]
  | succ f ih =>
    intro n hn
    match n with
    | 0 => simp [decDigitsAux]
    | m + 1 =>
      have hdiv : (m + 1) / 10 ≤ f := by
        have := Nat.div_lt_self (Nat.succ_pos m) (by norm_num : 1 < 10)
        omega
      show (m + 1) % 10 :: decDigitsAux f ((m + 1) / 10) = Nat.digits 10 (m + 1)
      rw [ih _ hdiv, Nat.digits_def' (by norm_num : 1 < 10) (Nat.succ_pos m)]

theorem decDigits_eq (n : ℕ) : decDigits n = Nat.digits 10 n :=
  decDigitsAux_eq n n le_rfl

theorem digits_len_le_of_lt_pow {fp dec : ℕ} (h : fp < 10 ^ dec) :
    (Nat.digits 10 fp).length ≤ dec := by
  rcases Nat.eq_zero_or_pos fp with h0 | h0
  · simp [h0]
  · by_contra hlen
    push_neg at hlen
    have h1 : 10 ^ (Nat.digits 10 fp).length ≤ 10 * fp :=
      Nat.base_pow_length_digits_le 10 fp (by norm_num) (Nat.pos_iff_ne_zero.mp h0)
    have h2 : 10 ^ (dec + 1) ≤ 10 ^ (Nat.digits 10 fp).length :=
      Nat.pow_le_pow_right (by norm_num) hlen
    have h3 : 10 * 10 ^ dec ≤ 10 * fp := by
      calc 10 * 10 ^ dec = 10 ^ (dec + 1) := by ring
        _ ≤ 10 ^ (Nat.digits 10 fp).length := h2
        _ ≤ 10 * fp := h1
    have h4 := Nat.le_of_mul_le_mul_left h3 (by norm_num)
    omega

theorem digitChar_isDigit {d : ℕ} (h : d < 10) :
    (Nat.digitChar d).isDigit = true := by
  interval_cases d <;> decide

theorem string_mk_length (l : List Char) : (String.mk l).length = l.length := rfl

theorem string_mk_toList (l : List Char) : (String.mk l).toList = l := rfl

theorem fracDigits_length {fp dec : ℕ} (h : fp < 10 ^ dec) :
    (fracDigits fp dec).length = dec := by
  have hl := digits_len_le_of_lt_pow h
  unfold fracDigits
  rw [string_mk_length, decDigits_eq]
  simp only [List.length_append, List.length_replicate, List.length_map,
    List.length_reverse]
  omega

theorem fracDigits_all_digits {fp dec : ℕ} :
    ∀ ch ∈ (fracDigits fp dec).toList, ch.isDigit = true := by
  unfold fracDigits
  rw [string_mk_toList, decDigits_eq]
  intro ch hch
  rcases List.mem_append.mp hch with hrep | hmap
  · rw [List.eq_of_mem_replicate hrep]
    decide
  · simp only [List.mem_map, List.mem_reverse] at hmap
    obtain ⟨d, hd, rfl⟩ := hmap
    exact digitChar_isDigit (Nat.digits_lt_base (by norm_num) hd)

theorem natStr_all_digits (n : ℕ) :
    ∀ ch ∈ (natStr n).toList, ch.isDigit = true := by
  unfold natStr
  split
  · intro ch hch
    have : ch = '0' := by
      simpa using hch
    rw [this]; decide
  · rw [string_mk_toList, decDigits_eq]
    intro ch hch
    simp only [List.mem_map, List.mem_reverse] at hch
    obtain ⟨d, hd, rfl⟩ := hch
    exact digitChar_isDigit (Nat.digits_lt_base (by norm_num) hd)

theorem string_toList_append (a b : String) :
    (a ++ b).toList = a.toList ++ b.toList := by
  simp [String.toList, String.data_append]

theorem fixedFmt_decomposition (q : ℚ) (dec : ℕ) (hdec : 0 < dec) :
    ∃ a b : String, fixedFmt q dec = a ++ "." ++ b ∧ b.length = dec ∧
      (∀ ch ∈ b.toList, ch.isDigit = true) ∧
      (∀ ch ∈ a.toList, ch = '-' ∨ ch.isDigit = true) := by
  unfold fixedFmt
  rw [if_neg (by omega)]
  refine ⟨(if q < 0 then "-" else "")
      ++ natStr ((halfEvenRound (|q| * (10 : ℚ) ^ dec)).toNat / 10 ^ dec),
    fracDigits ((halfEvenRound (|q| * (10 : ℚ) ^ dec)).toNat % 10 ^ dec) dec,
    ?_, ?_, ?_, ?_⟩
  · simp [String.append_assoc]
  · exact fracDigits_length (Nat.mod_lt _ (by positivity))
  · exact fracDigits_all_digits
  · intro ch hch
    rw [string_toList_append] at hch
    rcases List.mem_append.mp hch with hs | hn
    · left
      rcases le_or_lt 0 q with hq | hq
      · rw [if_neg (by exact not_lt.mpr hq)] at hs
        simp at hs
      · rw [if_pos hq] at hs
        simpa using hs
    · exact Or.inr (natStr_all_digits _ ch hn)

/-! ### Claim C9 -/

unseal Rat.add Rat.mul Rat.inv Rat.sub Nat.gcd in
/-- Claim C9: the unit-and-precision formatter on the canonical value 25.4
yields "1.0000" at imperial precision 4 and "25.400" at metric precision
3; imperial formatting divides by 25.4 and the result has exactly the
requested number of digits after the decimal point. -/
theorem fmt_unit_roundtrip_c9 :
    fmt inch 4 "G20" = "1.0000" ∧ fmt inch 3 "G21" = "25.400" ∧
    ∀ (num : ℚ) (dec : ℕ),
      fmt num dec "G20" = fixedFmt (num / inch) dec ∧
      (0 < dec → ∃ a b : String,
        fixedFmt (num / inch) dec = a ++ "." ++ b ∧ b.length = dec ∧
        (∀ ch ∈ b.toList, ch.isDigit = true) ∧
        (∀ ch ∈ a.toList, ch = '-' ∨ ch.isDigit = true)) := by
  refine ⟨by decide, by decide, fun num dec => ⟨?_, ?_⟩⟩
  · unfold fmt
    rw [if_neg (by decide)]
  · intro hdec
    exact fixedFmt_decomposition (num / inch) dec hdec

unseal Rat.add Rat.mul Rat.inv Rat.sub Nat.gcd in
/-- Witness for C9 at a concrete input: precision 2, value 7. -/
theorem fmt_unit_roundtrip_c9_witness :
    ∃ a b : String, fixedFmt ((7 : ℚ) / inch) 2 = a ++ "." ++ b ∧
      b.length = 2 ∧ (∀ ch ∈ b.toList, ch.isDigit = true) ∧
      (∀ ch ∈ a.toList, ch = '-' ∨ ch.isDigit = true) :=
  (fmt_unit_roundtrip_c9.2.2 7 2).2 (by decide)

/-! ### Dictionary lemmas -/

theorem pmem_eq_isSome_pfind (d : Params) (k : String) :
    pmem d k = (pfind d k).isSome := by
  induction d with
  | nil => rfl
  | cons kv t ih =>
    by_cases h : kv.1 = k <;>
      simp [pmem, pfind, List.any_cons, List.find?_cons, h] <;>
      simpa [pmem, pfind] using ih

theorem pmem_perm {d d2 : Params} (h : d.Perm d2) (k : String) :
    pmem d k = pmem d2 k := by
  induction h with
  | nil => rfl
  | cons x _ ih => simp [pmem, List.any_cons] at ih ⊢; rw [ih]
  | swap x y l => simp [pmem, List.any_cons, Bool.or_left_comm]
  | trans _ _ ih1 ih2 => exact ih1.trans ih2

theorem pfind_perm {d d2 : Params} (h : d.Perm d2) (k : String) :
    (d.map Prod.fst).Nodup → pfind d k = pfind d2 k := by
  induction h with
  | nil => intro _; rfl
  | cons x p ih =>
    intro hn
    simp only [List.map_cons, List.nodup_cons] at hn
    by_cases hx : x.1 = k
    · unfold pfind
      rw [List.find?_cons_of_pos _ (by simp [hx]),
        List.find?_cons_of_pos _ (by simp [hx])]
    · unfold pfind at ih ⊢
      rw [List.find?_cons_of_neg _ (by simp [hx]),
        List.find?_cons_of_neg _ (by simp [hx])]
      exact ih hn.2
  | swap x y l =>
    intro hn
    simp only [List.map_cons, List.nodup_cons, List.mem_cons] at hn
    have hxy : y.1 ≠ x.1 := fun hh => hn.1 (Or.inl hh)
    unfold pfind
    by_cases hy : y.1 = k <;> by_cases hx : x.1 = k
    · exact absurd (hy.trans hx.symm) hxy
    · rw [List.find?_cons_of_pos _ (by simp [hy]),
        List.find?_cons_of_neg _ (by simp [hx]),
        List.find?_cons_of_pos _ (by simp [hy])]
    · rw [List.find?_cons_of_neg _ (by simp [hy]),
        List.find?_cons_of_pos _ (by simp [hx]),
        List.find?_cons_of_pos _ (by simp [hx])]
    · rw [List.find?_cons_of_neg _ (by simp [hy]),
        List.find?_cons_of_neg _ (by simp [hx]),
        List.find?_cons_of_neg _ (by simp [hx]),
        List.find?_cons_of_neg _ (by simp [hy])]
  | trans h1 _ ih1 ih2 =>
    intro hn
    refine (ih1 hn).trans (ih2 ?_)
    exact ((h1.map Prod.fst).nodup_iff).mp hn

/-! ### Claim C10 -/

theorem emitParam_F_eval (values : Values) (loc : Params) (c : Command)
    (hm : pmem c.Parameters "F" = true) :
    emitParam values loc c "F" =
      if (pfind loc "F" ≠ pfind c.Parameters "F" || values.OUTPUT_DOUBLES) then
        if c.Name ∈ values.RAPID_MOVES then none
        else if speedValueAs ((pfind c.Parameters "F").getD 0)
            values.UNIT_SPEED_FORMAT > 0 then
          some ("F" ++ fixedFmt
            (speedValueAs ((pfind c.Parameters "F").getD 0)
              values.UNIT_SPEED_FORMAT) values.FEED_PRECISION)
        else none
      else none := by
  unfold emitParam
  rw [if_neg (by simp [hm]), if_pos rfl]
  split
  · rfl
  · next h1 =>
    simp only [Bool.or_eq_true, decide_eq_true_eq, not_or, not_not,
      Bool.not_eq_true] at h1
    obtain ⟨heq, hd⟩ := h1
    have hploc : pmem loc "F" = true := by
      rw [pmem_eq_isSome_pfind, heq, ← pmem_eq_isSome_pfind]
      exact hm
    rw [if_pos ⟨by simp [hd], hploc, heq⟩]

/-- Claim C10: an F token is emitted only when the feed value, converted
to the configured speed unit, is strictly positive; a zero or negative
feed yields no F token under any configuration. -/
theorem feed_positive_c10 (values : Values) (loc : Params) (c : Command) :
    (∀ tok : String, emitParam values loc c "F" = some tok →
      speedValueAs ((pfind c.Parameters "F").getD 0) values.UNIT_SPEED_FORMAT > 0)
    ∧ (speedValueAs ((pfind c.Parameters "F").getD 0) values.UNIT_SPEED_FORMAT ≤ 0 →
      emitParam values loc c "F" = none) := by
  by_cases hm : pmem c.Parameters "F"
  · rw [emitParam_F_eval values loc c hm]
    by_cases h1 : (pfind loc "F" ≠ pfind c.Parameters "F"
        || values.OUTPUT_DOUBLES) = true
    · by_cases hr : c.Name ∈ values.RAPID_MOVES
      · rw [if_pos h1, if_pos hr]
        exact ⟨(fun tok h => nomatch h), fun _ => rfl⟩
      · by_cases hs : speedValueAs ((pfind c.Parameters "F").getD 0)
            values.UNIT_SPEED_FORMAT > 0
        · rw [if_pos h1, if_neg hr, if_pos hs]
          exact ⟨(fun tok _ => hs), fun hle => absurd hs (not_lt.mpr hle)⟩
        · rw [if_pos h1, if_neg hr, if_neg hs]
          exact ⟨(fun tok h => nomatch h), fun _ => rfl⟩
    · rw [if_neg h1]
      exact ⟨(fun tok h => nomatch h), fun _ => rfl⟩
  · have hnone : emitParam values loc c "F" = none := by
      unfold emitParam
      rw [if_pos (by simp [hm])]
    rw [hnone]
    exact ⟨(fun tok h => nomatch h), fun _ => rfl⟩


unseal Rat.add Rat.mul Rat.inv Rat.sub Nat.gcd in
/-- Witness for C10 at a concrete input: a G1 command with feed -5 (which
converts to -300 mm/min) yields no F token. -/
theorem feed_positive_c10_witness :
    emitParam init_shared_values initialLocation
      ⟨"G1", [("F", -5), ("X", 1)]⟩ "F" = none :=
  (feed_positive_c10 init_shared_values initialLocation
    ⟨"G1", [("F", -5), ("X", 1)]⟩).2 (by decide)

/-! ### Claim C6 -/

unseal Rat.add Rat.mul Rat.inv Rat.sub Nat.gcd in
/-- Claim C6 counterexample: with the default configuration, a G83 command
carrying Q = 3 is emitted with the token "Q3.000" - decimal axis
formatting - not as the plain integer token "Q3". -/
theorem int_keys_c6_counterexample :
    paramTokens init_shared_values initialLocation ⟨"G83", [("Q", 3)]⟩ = ["Q3.000"]
    ∧ ("Q3.000").toList.contains '.' = true
    ∧ "Q" ++ toString (pyint 3) = "Q3" := by
  refine ⟨by rfl, by rfl, by rfl⟩

/-- Claim C6 amended: the keys T, H, D, L and P present in a command are
emitted as plain integer tokens; Q, by contrast, falls through to the
axis-value branch: converted to the configured unit and formatted at axis
precision, subject to doubles suppression. -/
theorem int_keys_c6_amended (values : Values) (loc : Params) (c : Command) :
    (∀ p, (p = "T" ∨ p = "H" ∨ p = "D" ∨ p = "L" ∨ p = "P") →
      pmem c.Parameters p = true →
      emitParam values loc c p
        = some (p ++ toString (pyint ((pfind c.Parameters p).getD 0))))
    ∧ (pmem c.Parameters "Q" = true →
        emitParam values loc c "Q" =
          (if ¬ values.OUTPUT_DOUBLES ∧ pmem loc "Q" = true
              ∧ pfind loc "Q" = pfind c.Parameters "Q" then none
           else some ("Q" ++ fixedFmt
              (lengthValueAs ((pfind c.Parameters "Q").getD 0) values.UNIT_FORMAT)
              values.AXIS_PRECISION))) := by
  constructor
  · intro p hp hm
    unfold emitParam
    rcases hp with rfl | rfl | rfl | rfl | rfl <;> simp [hm]
  · intro hm
    unfold emitParam
    simp [hm]

unseal Rat.add Rat.mul Rat.inv Rat.sub Nat.gcd in
/-- Witness for the amended C6 at a concrete input: T = 2 on an M6 command
is emitted as the integer token "T2". -/
theorem int_keys_c6_amended_witness :
    emitParam init_shared_values initialLocation ⟨"M6", [("T", 2)]⟩ "T"
      = some "T2" :=
  ((int_keys_c6_amended init_shared_values initialLocation
      ⟨"M6", [("T", 2)]⟩).1 "T" (Or.inl rfl) (by rfl)).trans (by rfl)

/-! ### Claim C7 -/

theorem filterMap_eq_filter_map {α : Type} (f : α → Option String) (l : List α) :
    l.filterMap f
      = (l.filter (fun a => (f a).isSome)).map (fun a => (f a).getD "") := by
  induction l with
  | nil => rfl
  | cons a t ih =>
    cases hfa : f a <;>
      simp [List.filterMap_cons, List.filter_cons, hfa, ih]

theorem emitParam_isSome_pmem {values : Values} {loc : Params} {c : Command}
    {p : String} (h : (emitParam values loc c p).isSome = true) :
    pmem c.Parameters p = true := by
  by_cases hm : pmem c.Parameters p
  · exact hm
  · unfold emitParam at h
    rw [if_pos (by simp [hm])] at h
    exact absurd h (by simp)

theorem emitParam_params_congr (values : Values) (loc : Params) (nm : String)
    (ps ps2 : Params)
    (hm : ∀ k, pmem ps k = pmem ps2 k) (hf : ∀ k, pfind ps k = pfind ps2 k)
    (p : String) :
    emitParam values loc ⟨nm, ps⟩ p = emitParam values loc ⟨nm, ps2⟩ p := by
  unfold emitParam
  simp only [hm, hf]

/-- Claim C7: the emitted parameter tokens are exactly a selection of the
configured parameter-order list walked in its order (so tokens appear in
configured order, and keys outside the list are never emitted), and the
emission does not depend on the storage order of the command parameters. -/
theorem param_order_c7 (values : Values) (loc : Params) (c : Command) :
    (∃ picked : List String,
        picked.Sublist values.PARAMETER_ORDER ∧
        (∀ p ∈ picked, pmem c.Parameters p = true) ∧
        paramTokens values loc c
          = picked.map (fun p => (emitParam values loc c p).getD "")) ∧
    (∀ ps2 : Params, (c.Parameters.map Prod.fst).Nodup → c.Parameters.Perm ps2 →
        paramTokens values loc c = paramTokens values loc ⟨c.Name, ps2⟩) := by
  constructor
  · refine ⟨values.PARAMETER_ORDER.filter
        (fun p => (emitParam values loc c p).isSome),
      List.filter_sublist _, ?_, ?_⟩
    · intro p hp
      exact emitParam_isSome_pmem (List.mem_filter.mp hp).2
    · exact filterMap_eq_filter_map _ _
  · intro ps2 hn hperm
    unfold paramTokens
    have hcongr : ∀ p, emitParam values loc c p
        = emitParam values loc ⟨c.Name, ps2⟩ p := by
      intro p
      have hc : c = ⟨c.Name, c.Parameters⟩ := rfl
      rw [hc]
      exact emitParam_params_congr values loc c.Name c.Parameters ps2
        (fun k => pmem_perm hperm k) (fun k => pfind_perm hperm k hn) p
    rw [funext hcongr]

/-! ### Claim C8 -/

@[simp]
theorem linenumber_CURRENT_X (v : Values) (sp : Option String) :
    ((linenumber v sp).2).CURRENT_X = v.CURRENT_X := by
  unfold linenumber
  split <;> rfl

@[simp]
theorem linenumber_CURRENT_Y (v : Values) (sp : Option String) :
    ((linenumber v sp).2).CURRENT_Y = v.CURRENT_Y := by
  unfold linenumber
  split <;> rfl

@[simp]
theorem linenumber_CURRENT_Z (v : Values) (sp : Option String) :
    ((linenumber v sp).2).CURRENT_Z = v.CURRENT_Z := by
  unfold linenumber
  split <;> rfl

@[simp]
theorem linenumber_MOTION_COMMANDS (v : Values) (sp : Option String) :
    ((linenumber v sp).2).MOTION_COMMANDS = v.MOTION_COMMANDS := by
  unfold linenumber
  split <;> rfl

/-- The position fields and the motion-command set that the per-command
loop must leave alone. -/
def PosPreserved (v2 v : Values) : Prop :=
  v2.CURRENT_X = v.CURRENT_X ∧ v2.CURRENT_Y = v.CURRENT_Y ∧
  v2.CURRENT_Z = v.CURRENT_Z ∧ v2.MOTION_COMMANDS = v.MOTION_COMMANDS

theorem posPreserved_refl (v : Values) : PosPreserved v v :=
  ⟨rfl, rfl, rfl, rfl⟩

theorem posPreserved_trans {v3 v2 v : Values} (h1 : PosPreserved v3 v2)
    (h2 : PosPreserved v2 v) : PosPreserved v3 v :=
  ⟨h1.1.trans h2.1, h1.2.1.trans h2.2.1, h1.2.2.1.trans h2.2.2.1,
    h1.2.2.2.trans h2.2.2.2⟩

theorem linenumber_posPreserved (v : Values) (sp : Option String) :
    PosPreserved (linenumber v sp).2 v := by
  refine ⟨?_, ?_, ?_, ?_⟩ <;> simp

theorem emitLinesOut_posPreserved (text : String) (out : PyOut) (v : Values) :
    PosPreserved (emitLinesOut out v text).2 v := by
  unfold emitLinesOut
  generalize pySplitlines text = lines
  induction lines generalizing out v with
  | nil => exact posPreserved_refl v
  | cons a t ih =>
    simp only [List.foldl_cons]
    exact posPreserved_trans (ih _ _) (linenumber_posPreserved v none)

@[simp]
theorem emitLinesOut_CURRENT_X (text : String) (out : PyOut) (v : Values) :
    ((emitLinesOut out v text).2).CURRENT_X = v.CURRENT_X :=
  (emitLinesOut_posPreserved text out v).1

@[simp]
theorem emitLinesOut_CURRENT_Y (text : String) (out : PyOut) (v : Values) :
    ((emitLinesOut out v text).2).CURRENT_Y = v.CURRENT_Y :=
  (emitLinesOut_posPreserved text out v).2.1

@[simp]
theorem emitLinesOut_CURRENT_Z (text : String) (out : PyOut) (v : Values) :
    ((emitLinesOut out v text).2).CURRENT_Z = v.CURRENT_Z :=
  (emitLinesOut_posPreserved text out v).2.2.1

@[simp]
theorem emitLinesOut_MOTION_COMMANDS (text : String) (out : PyOut) (v : Values) :
    ((emitLinesOut out v text).2).MOTION_COMMANDS = v.MOTION_COMMANDS :=
  (emitLinesOut_posPreserved text out v).2.2.2

theorem drillStage_values {command : String} {c : Command} {fuel : ℕ}
    {s s2 : Values × PyOut × List String}
    (h : drillStage command c fuel s = .ok s2) : s2.1 = s.1 := by
  unfold drillStage at h
  repeat' split at h
  all_goals first
    | exact Except.noConfusion h
    | (injection h with h2; rw [← h2])

theorem spindleStage_values {command : String}
    {s s2 : Values × PyOut × List String}
    (h : spindleStage command s = .ok s2) : s2.1 = s.1 := by
  unfold spindleStage at h
  repeat' split at h
  all_goals first
    | exact Except.noConfusion h
    | (injection h with h2; rw [← h2])

theorem toolChangeStage_posPreserved {command : String}
    {s s2 : Values × PyOut × List String}
    (h : toolChangeStage command s = .ok s2) : PosPreserved s2.1 s.1 := by
  obtain ⟨values, out, outstring⟩ := s
  unfold toolChangeStage at h
  dsimp only at h
  repeat' split at h
  all_goals first
    | exact Except.noConfusion h
    | (injection h with h2; rw [← h2];
       exact ⟨by simp, by simp, by simp, by simp⟩)

theorem messageStage_values {command : String}
    {s s2 : Values × PyOut × List String}
    (h : messageStage command s = .ok s2) : s2.1 = s.1 := by
  unfold messageStage at h
  repeat' split at h
  all_goals first
    | exact Except.noConfusion h
    | (injection h with h2; rw [← h2])

theorem suppressStage_values {command : String}
    {s s2 : Values × PyOut × List String}
    (h : suppressStage command s = .ok s2) : s2.1 = s.1 := by
  unfold suppressStage at h
  repeat' split at h
  all_goals first
    | exact Except.noConfusion h
    | (injection h with h2; rw [← h2])

theorem assembleStage_posPreserved (s : Values × PyOut × List String) :
    PosPreserved (assembleStage s).1 s.1 := by
  obtain ⟨values, out, outstring⟩ := s
  unfold assembleStage
  dsimp only
  repeat' split
  all_goals exact ⟨by simp, by simp, by simp, by simp⟩

theorem tloStage_posPreserved {command : String} {c : Command}
    {s s2 : Values × PyOut × List String}
    (h : tloStage command c s = .ok s2) : PosPreserved s2.1 s.1 := by
  unfold tloStage at h
  repeat' split at h
  all_goals first
    | exact Except.noConfusion h
    | (injection h with h2; rw [← h2];
       exact ⟨by simp, by simp, by simp, by simp⟩)

theorem mcStage_posPreserved (command : String)
    (s : Values × PyOut × List String) :
    PosPreserved (mcStage command s).1 s.1 := by
  unfold mcStage
  repeat' split
  all_goals exact ⟨by simp, by simp, by simp, by simp⟩

theorem posPreserved_of_eq {v2 v : Values} (h : v2 = v) : PosPreserved v2 v :=
  h ▸ posPreserved_refl v

theorem afterModes_posPreserved {values : Values} {command : String}
    {c : Command} {outstring : List String} {out : PyOut} {fuel : ℕ}
    {v2 : Values} {out2 : PyOut}
    (h : afterModes values command c outstring out fuel = .ok (v2, out2)) :
    PosPreserved v2 values := by
  unfold afterModes at h
  simp only [bind, Except.bind, pure, Except.pure] at h
  cases h1 : drillStage command c fuel (values, out, outstring) with
  | error e => simp only [h1] at h; exact Except.noConfusion h
  | ok s1 =>
  simp only [h1] at h
  cases h2 : spindleStage command s1 with
  | error e => simp only [h2] at h; exact Except.noConfusion h
  | ok s2 =>
  simp only [h2] at h
  cases h3 : toolChangeStage command s2 with
  | error e => simp only [h3] at h; exact Except.noConfusion h
  | ok s3 =>
  simp only [h3] at h
  cases h4 : messageStage command s3 with
  | error e => simp only [h4] at h; exact Except.noConfusion h
  | ok s4 =>
  simp only [h4] at h
  cases h5 : suppressStage command s4 with
  | error e => simp only [h5] at h; exact Except.noConfusion h
  | ok s5 =>
  simp only [h5] at h
  cases h7 : tloStage command c (assembleStage s5) with
  | error e => simp only [h7] at h; exact Except.noConfusion h
  | ok s7 =>
  simp only [h7, Except.ok.injEq, Prod.mk.injEq] at h
  have hv2 : v2 = (mcStage command s7).1 := h.1.symm
  rw [hv2]
  refine posPreserved_trans (mcStage_posPreserved command s7) ?_
  refine posPreserved_trans (tloStage_posPreserved h7) ?_
  refine posPreserved_trans (assembleStage_posPreserved s5) ?_
  refine posPreserved_trans (posPreserved_of_eq (suppressStage_values h5)) ?_
  refine posPreserved_trans (posPreserved_of_eq (messageStage_values h4)) ?_
  refine posPreserved_trans (toolChangeStage_posPreserved h3) ?_
  refine posPreserved_trans (posPreserved_of_eq (spindleStage_values h2)) ?_
  exact posPreserved_of_eq (drillStage_values h1)

theorem except_bind_ok {ε α β : Type} {ma : Except ε α} {f : α → Except ε β}
    {b : β} (h : ma >>= f = .ok b) : ∃ a, ma = .ok a ∧ f a = .ok b := by
  cases ma with
  | error e => simp [Bind.bind, Except.bind] at h
  | ok a => exact ⟨a, rfl, by simpa [Bind.bind, Except.bind] using h⟩

theorem modeUpdate_CURRENT_X (v : Values) (command : String) :
    (modeUpdate v command).CURRENT_X = v.CURRENT_X := by
  unfold modeUpdate
  dsimp only
  split <;> split <;> rfl

theorem modeUpdate_CURRENT_Y (v : Values) (command : String) :
    (modeUpdate v command).CURRENT_Y = v.CURRENT_Y := by
  unfold modeUpdate
  dsimp only
  split <;> split <;> rfl

theorem modeUpdate_CURRENT_Z (v : Values) (command : String) :
    (modeUpdate v command).CURRENT_Z = v.CURRENT_Z := by
  unfold modeUpdate
  dsimp only
  split <;> split <;> rfl

theorem modeUpdate_MOTION_COMMANDS (v : Values) (command : String) :
    (modeUpdate v command).MOTION_COMMANDS = v.MOTION_COMMANDS := by
  unfold modeUpdate
  dsimp only
  split <;> split <;> rfl

theorem positionUpdate_CURRENT_X (values : Values) (command : String)
    (c : Command) :
    (positionUpdate values command c).CURRENT_X =
      if command ∈ values.MOTION_COMMANDS ∧ pmem c.Parameters "X" = true then
        (pfind c.Parameters "X").getD values.CURRENT_X
      else values.CURRENT_X := by
  unfold positionUpdate
  by_cases hm : command ∈ values.MOTION_COMMANDS
  · cases hx : pfind c.Parameters "X" <;>
      cases hy : pfind c.Parameters "Y" <;>
        cases hz : pfind c.Parameters "Z" <;>
          simp [pmem_eq_isSome_pfind, hm, hx, hy, hz]
  · simp [hm]

theorem positionUpdate_CURRENT_Y (values : Values) (command : String)
    (c : Command) :
    (positionUpdate values command c).CURRENT_Y =
      if command ∈ values.MOTION_COMMANDS ∧ pmem c.Parameters "Y" = true then
        (pfind c.Parameters "Y").getD values.CURRENT_Y
      else values.CURRENT_Y := by
  unfold positionUpdate
  by_cases hm : command ∈ values.MOTION_COMMANDS
  · cases hx : pfind c.Parameters "X" <;>
      cases hy : pfind c.Parameters "Y" <;>
        cases hz : pfind c.Parameters "Z" <;>
          simp [pmem_eq_isSome_pfind, hm, hx, hy, hz]
  · simp [hm]

theorem positionUpdate_CURRENT_Z (values : Values) (command : String)
    (c : Command) :
    (positionUpdate values command c).CURRENT_Z =
      if command ∈ values.MOTION_COMMANDS ∧ pmem c.Parameters "Z" = true then
        (pfind c.Parameters "Z").getD values.CURRENT_Z
      else values.CURRENT_Z := by
  unfold positionUpdate
  by_cases hm : command ∈ values.MOTION_COMMANDS
  · cases hx : pfind c.Parameters "X" <;>
      cases hy : pfind c.Parameters "Y" <;>
        cases hz : pfind c.Parameters "Z" <;>
          simp [pmem_eq_isSome_pfind, hm, hx, hy, hz]
  · simp [hm]

theorem positionUpdate_MOTION_COMMANDS (values : Values) (command : String)
    (c : Command) :
    (positionUpdate values command c).MOTION_COMMANDS =
      values.MOTION_COMMANDS := by
  unfold positionUpdate
  by_cases hm : command ∈ values.MOTION_COMMANDS
  · cases hx : pfind c.Parameters "X" <;>
      cases hy : pfind c.Parameters "Y" <;>
        cases hz : pfind c.Parameters "Z" <;>
          simp [hm, hx, hy, hz]
  · simp [hm]

theorem commandToken_plain {values : Values} {c : Command}
    (h1 : c.Name ≠ "") (h2 : strStartsWith c.Name "(" = false) :
    commandToken values c = .ok (some c.Name) := by
  unfold commandToken
  rw [if_neg h1, if_neg (by simp [h2])]

theorem parse_one_tracks {values : Values} {st : LoopSt} {out : PyOut}
    {c : Command} {fuel : ℕ} {values2 : Values} {st2 : LoopSt} {out2 : PyOut}
    (h1 : c.Name ≠ "") (h2 : strStartsWith c.Name "(" = false)
    (h : parse_one values st out c fuel = .ok (values2, st2, out2)) :
    values2.CURRENT_X =
      (if c.Name ∈ values.MOTION_COMMANDS ∧ pmem c.Parameters "X" = true then
        (pfind c.Parameters "X").getD values.CURRENT_X
      else values.CURRENT_X) ∧
    values2.CURRENT_Y =
      (if c.Name ∈ values.MOTION_COMMANDS ∧ pmem c.Parameters "Y" = true then
        (pfind c.Parameters "Y").getD values.CURRENT_Y
      else values.CURRENT_Y) ∧
    values2.CURRENT_Z =
      (if c.Name ∈ values.MOTION_COMMANDS ∧ pmem c.Parameters "Z" = true then
        (pfind c.Parameters "Z").getD values.CURRENT_Z
      else values.CURRENT_Z) ∧
    values2.MOTION_COMMANDS = values.MOTION_COMMANDS := by
  unfold parse_one at h
  rw [commandToken_plain h1 h2] at h
  simp only [bind, Except.bind] at h
  obtain ⟨⟨va, oa⟩, ha, hk⟩ := except_bind_ok h
  simp only [pure, Except.pure, Except.ok.injEq, Prod.mk.injEq] at hk
  have hva : values2 = va := hk.1.symm
  have hpres := afterModes_posPreserved ha
  rw [hva]
  unfold updateModes at hpres
  refine ⟨?_, ?_, ?_, ?_⟩
  · rw [hpres.1, modeUpdate_CURRENT_X, positionUpdate_CURRENT_X]
  · rw [hpres.2.1, modeUpdate_CURRENT_Y, positionUpdate_CURRENT_Y]
  · rw [hpres.2.2.1, modeUpdate_CURRENT_Z, positionUpdate_CURRENT_Z]
  · rw [hpres.2.2.2, modeUpdate_MOTION_COMMANDS, positionUpdate_MOTION_COMMANDS]

/-- Claim C8: after the per-command loop runs a list of commands whose
names are not parenthesis comments, the tracked position of each axis
equals the value carried by the most recent motion command that mentioned
that axis (the claim's own `specAxisTrack`), and commands outside the
motion set never change the tracked position. -/
theorem position_tracking_c8 (values : Values) (st : LoopSt) (out : PyOut)
    (cmds : List Command) (fuel : ℕ) (values2 : Values) (st2 : LoopSt)
    (out2 : PyOut)
    (hnames : ∀ c ∈ cmds, c.Name ≠ "" ∧ strStartsWith c.Name "(" = false)
    (hrun : runCmds values st out cmds fuel = .ok (values2, st2, out2)) :
    values2.CURRENT_X
      = specAxisTrack values.MOTION_COMMANDS "X" values.CURRENT_X cmds ∧
    values2.CURRENT_Y
      = specAxisTrack values.MOTION_COMMANDS "Y" values.CURRENT_Y cmds ∧
    values2.CURRENT_Z
      = specAxisTrack values.MOTION_COMMANDS "Z" values.CURRENT_Z cmds ∧
    values2.MOTION_COMMANDS = values.MOTION_COMMANDS := by
  induction cmds generalizing values st out with
  | nil =>
    unfold runCmds at hrun
    simp only [Except.ok.injEq, Prod.mk.injEq] at hrun
    obtain ⟨hv, -, -⟩ := hrun
    subst hv
    exact ⟨rfl, rfl, rfl, rfl⟩
  | cons c rest ih =>
    unfold runCmds at hrun
    obtain ⟨⟨v1, st1, out1⟩, hp, hrun2⟩ := except_bind_ok hrun
    have hrun3 : runCmds v1 st1 out1 rest fuel = .ok (values2, st2, out2) :=
      hrun2
    have hc := hnames c (List.mem_cons_self c rest)
    have hrest : ∀ x ∈ rest, x.Name ≠ "" ∧ strStartsWith x.Name "(" = false :=
      fun x hx => hnames x (List.mem_cons_of_mem c hx)
    have hpo := parse_one_tracks hc.1 hc.2 hp
    have irec := ih v1 st1 out1 hrest hrun3
    have hmot : v1.MOTION_COMMANDS = values.MOTION_COMMANDS := hpo.2.2.2
    refine ⟨?_, ?_, ?_, irec.2.2.2.trans hmot⟩
    · calc values2.CURRENT_X
          = specAxisTrack v1.MOTION_COMMANDS "X" v1.CURRENT_X rest := irec.1
        _ = specAxisTrack values.MOTION_COMMANDS "X" v1.CURRENT_X rest := by
            rw [hmot]
        _ = specAxisTrack values.MOTION_COMMANDS "X" values.CURRENT_X
              (c :: rest) := by
            rw [hpo.1]
            rfl
    · calc values2.CURRENT_Y
          = specAxisTrack v1.MOTION_COMMANDS "Y" v1.CURRENT_Y rest := irec.2.1
        _ = specAxisTrack values.MOTION_COMMANDS "Y" v1.CURRENT_Y rest := by
            rw [hmot]
        _ = specAxisTrack values.MOTION_COMMANDS "Y" values.CURRENT_Y
              (c :: rest) := by
            rw [hpo.2.1]
            rfl
    · calc values2.CURRENT_Z
          = specAxisTrack v1.MOTION_COMMANDS "Z" v1.CURRENT_Z rest :=
            irec.2.2.1
        _ = specAxisTrack values.MOTION_COMMANDS "Z" v1.CURRENT_Z rest := by
            rw [hmot]
        _ = specAxisTrack values.MOTION_COMMANDS "Z" values.CURRENT_Z
              (c :: rest) := by
            rw [hpo.2.2.1]
            rfl

/-! ### Claims C1, C2, C3 (drill-cycle translation) -/

unseal Rat.add Rat.mul Rat.inv Rat.sub Nat.gcd in
/-- Claim C1, evaluated on the code: a well-formed G83 peck cycle (R at 0,
Z at -3, Q of 1, so the claim expects three feed passes to -1, -2 and -3)
produces an empty translation - every buffer append inside the try block
raises TypeError from the no-argument `linenumber()` call and is
swallowed - and with the default comment echo enabled the same call makes
the TypeError escape the translator entirely. -/
theorem peck_cycle_c1 :
    drill_translate vNoComments ["G83"] "G83"
      [("X", 1), ("Y", 2), ("Z", -3), ("R", 0), ("F", 5), ("Q", 1)] 9 = .ok ""
    ∧ drill_translate init_shared_values ["G83"] "G83"
      [("X", 1), ("Y", 2), ("Z", -3), ("R", 0), ("F", 5), ("Q", 1)] 9
      = .error .typeError :=
  ⟨rfl, rfl⟩

unseal Rat.add Rat.mul Rat.inv Rat.sub Nat.gcd in
/-- Claim C2, evaluated on the code: a G81 whose R (0) is below its Z (1)
raises TypeError from the no-argument `linenumber()` call in the
diagnostic branch; the exception escapes the translator, so no diagnostic
comment is returned and the export aborts instead of continuing. -/
theorem drill_validation_c2 :
    drill_translate vNoComments ["G81"] "G81"
      [("X", 0), ("Y", 0), ("Z", 1), ("R", 0), ("F", 5)] 9 = .error .typeError
    ∧ ((0 : ℚ) < 1) :=
  ⟨rfl, by norm_num⟩

unseal Rat.add Rat.mul Rat.inv Rat.sub Nat.gcd in
/-- Claim C3, evaluated on the code: in absolute mode the TypeError raised
inside the try block is swallowed and the translator returns an empty
buffer, but in relative (G91) mode the G91-restore append itself calls
`linenumber()` with no arguments, so a TypeError escapes the translator
and no G91 line is appended. -/
theorem drill_failure_c3 :
    drill_translate vRelative ["G81"] "G81"
      [("X", 0), ("Y", 0), ("Z", -1), ("R", 0), ("F", 5)] 9 = .error .typeError
    ∧ drill_translate vNoComments ["G81"] "G81"
      [("X", 0), ("Y", 0), ("Z", -1), ("R", 0), ("F", 5)] 9 = .ok "" :=
  ⟨rfl, rfl⟩

/-! ### Claim C4 -/

unseal Rat.add Rat.mul Rat.inv Rat.sub Nat.gcd in
/-- Claim C4 counterexample: a compound containing an operation whose own
Active flag is false still has that operation's motion command emitted
(line `G1 X5.000 F18000.000`), and the tracked X position is updated to 5
on its account - nested nodes are never active-checked. -/
theorem nested_active_c4_counterexample :
    (export_common vPlainPreamble [wrapperGroup] "cam" "now" 9).map
        (fun p => (p.1, p.2.CURRENT_X))
      = .ok (some "G90\nG21\nG1 X5.000 F18000.000\n", 5)
    ∧ inactiveChild.activeFlag = some false :=
  ⟨rfl, rfl⟩

/-- Claim C4 amended: only top-level objects of the export list are
subject to the active check - a top-level object whose own Active flag,
or whose Base object's Active flag, is false contributes no output text
and leaves the emitter state unchanged; objects nested inside a compound
are parsed regardless of their flags. -/
theorem toplevel_active_skip_c4 (values : Values) (obj : PathObj) (fuel : ℕ)
    (h : obj.activeFlag = some false ∨ obj.baseActiveFlag = some false) :
    export_one values obj fuel = .ok ("", values) := by
  unfold export_one
  rcases h with h | h
  · rw [if_pos h]
  · by_cases h1 : obj.activeFlag = some false
    · rw [if_pos h1]
    · rw [if_neg h1, if_pos h]

/-- Witness for the amended C4: a concrete inactive top-level object is
skipped with no output and no state change. -/
theorem toplevel_active_skip_c4_witness :
    export_one init_shared_values
      (.mk "x" (some false) none none none .other) 9
      = .ok ("", init_shared_values) :=
  toplevel_active_skip_c4 init_shared_values
    (.mk "x" (some false) none none none .other) 9 (Or.inl rfl)

/-! ### Claim C5 -/

unseal Rat.add Rat.mul Rat.inv Rat.sub Nat.gcd in
/-- Claim C5, evaluated on the code: exporting a single path object with
an empty command list under the default configuration does not produce
the two lines G90 and G21 - the motion-mode emission calls `linenumber()`
without its required `values` argument and the whole export raises
TypeError; the same happens with header and comments disabled. -/
theorem empty_export_c5 :
    export_common init_shared_values [emptyPathObject] "cam" "now" 9
      = .error .typeError
    ∧ export_common
        { init_shared_values with
          OUTPUT_HEADER := false, OUTPUT_COMMENTS := false }
        [emptyPathObject] "cam" "now" 9 = .error .typeError :=
  ⟨rfl, rfl⟩

unseal Rat.add Rat.mul Rat.inv Rat.sub Nat.gcd in
/-- Witness for C8 at a concrete input: a G0 move to X10 Y20 followed by a
non-motion G7 carrying X7 leaves the tracked X at 10, as the claim's
tracker computes. -/
theorem position_tracking_c8_witness :
    ∃ (v2 : Values) (st2 : LoopSt) (o2 : PyOut),
      runCmds init_shared_values ⟨none, initialLocation⟩ (.s "")
        [⟨"G0", [("X", 10), ("Y", 20)]⟩, ⟨"G7", [("X", 7)]⟩] 9
        = .ok (v2, st2, o2) ∧
      v2.CURRENT_X
        = specAxisTrack init_shared_values.MOTION_COMMANDS "X"
            init_shared_values.CURRENT_X
            [⟨"G0", [("X", 10), ("Y", 20)]⟩, ⟨"G7", [("X", 7)]⟩] :=
  ⟨_, _, _, rfl,
    (position_tracking_c8 init_shared_values ⟨none, initialLocation⟩ (.s "")
      [⟨"G0", [("X", 10), ("Y", 20)]⟩, ⟨"G7", [("X", 7)]⟩] 9 _ _ _
      (by decide) rfl).1⟩

unseal Rat.add Rat.mul Rat.inv Rat.sub Nat.gcd in
/-- Witness for C7 at a concrete input: storing F before X or X before F
produces the same token list, with X first as the configured order says. -/
theorem param_order_c7_witness :
    paramTokens init_shared_values initialLocation ⟨"G1", [("F", 2), ("X", 1)]⟩
      = paramTokens init_shared_values initialLocation
          ⟨"G1", [("X", 1), ("F", 2)]⟩
    ∧ paramTokens init_shared_values initialLocation
        ⟨"G1", [("F", 2), ("X", 1)]⟩ = ["X1.000", "F120.000"] := by
  refine ⟨(param_order_c7 init_shared_values initialLocation
      ⟨"G1", [("F", 2), ("X", 1)]⟩).2
    [("X", 1), ("F", 2)] (by decide) (by decide), by rfl⟩

end PostUtils
